import Mathlib

/-!
Shallow embedding of `src/mlondiem-ss.js` (SmartStatus v0.9.2), a jQuery
status-widget class backed by a global registry `window._smart_statuses`.

DOM elements live in per-kind heaps (assoc lists keyed by `Nat` references);
a `Widget` holds the references of its `_dom_self` members, each an
`Option Nat` because a jQuery lookup (`wrapper.find(...)`, `$('div[...]')`)
can come back empty.  The registry maps registry keys (strings) to widget
references.  Presentation-only effects (CSS offsets, the animation itself)
are out of scope per the spec; visibility and the last fade-out duration are
retained so that `hide`, `show` and the dismiss handler are observable.
-/

namespace SmartStatusJs

/-- Association-list lookup: the value of the first entry with the given key
(JS object property read, `undefined` modelled as `none`). -/
def lookupA {κ α : Type} [DecidableEq κ] (k : κ) : List (κ × α) → Option α
  | [] => none
  | p :: rest => if p.1 = k then some p.2 else lookupA k rest

/-- Association-list update: overwrite the first entry with the given key, or
append (JS object property write). -/
def setA {κ α : Type} [DecidableEq κ] (k : κ) (v : α) : List (κ × α) → List (κ × α)
  | [] => [(k, v)]
  | p :: rest => if p.1 = k then (k, v) :: rest else p :: setA k v rest

/-- Association-list deletion of the first entry with the given key
(JS `delete obj[k]`). -/
def eraseA {κ α : Type} [DecidableEq κ] (k : κ) : List (κ × α) → List (κ × α)
  | [] => []
  | p :: rest => if p.1 = k then rest else p :: eraseA k rest

/-- Keys of an association list are pairwise distinct (holds for every state
built by `setA`/`eraseA` from the empty list, i.e. for JS objects). -/
abbrev keysNodup {κ α : Type} (l : List (κ × α)) : Prop := (l.map Prod.fst).Nodup

/-- Duration argument of a jQuery fade: a number of milliseconds or the
string 'slow'. -/
inductive FadeDur where
  | ms (n : Nat)
  | slow
deriving DecidableEq, Repr

/-- The `<div class="smart-status" data-id="smart-">` wrapper element. -/
structure WrapperE where
  dataId : String
  inDoc : Bool
  visible : Bool
  lastFadeOut : Option FadeDur
deriving DecidableEq, Repr

/-- The `<span class="fa fa-spinner fa-spin"/>` spinner element; `parent` is
the wrapper it was appended to in `setup()`. -/
structure SpinnerE where
  parent : Nat
  classes : List String
deriving DecidableEq, Repr

/-- The `<span class="smart-status-msg">Loading...</span>` banner element. -/
structure BannerE where
  parent : Nat
  html : String
deriving DecidableEq, Repr

/-- The `<span class="fa fa-times close" .../>` dismiss control. -/
structure CloseE where
  parent : Nat
deriving DecidableEq, Repr

/-- Model of `this._dom_self`: the references a SmartStatus instance holds to its
DOM elements.  Each is `Option Nat` because after an overwrite-attach they
are reassigned from jQuery searches, which may match nothing. -/
structure Widget where
  wrapper : Option Nat
  spinner : Option Nat
  banner : Option Nat
  close_btn : Option Nat
deriving DecidableEq, Repr

/-- The whole mutable world: the element heaps, the instance heap, the
global registry `window._smart_statuses` and an allocation counter. -/
structure St where
  wrappers : List (Nat × WrapperE)
  spinners : List (Nat × SpinnerE)
  banners : List (Nat × BannerE)
  closes : List (Nat × CloseE)
  widgets : List (Nat × Widget)
  registry : List (String × Nat)
  nextId : Nat
deriving DecidableEq, Repr

/-- The world at page load: `window._smart_statuses = []` and no elements. -/
def initSt : St := ⟨[], [], [], [], [], [], 0⟩

/-- Model of `SmartStatus.prototype.find`: returns the registered widget for `id`,
or `false` (modelled `none`) when `typeof window._smart_statuses[id]` is
undefined. -/
def find (id : String) (st : St) : Option Nat :=
  lookupA id st.registry

/-- Model of `constructor(txt, target)` without the trailing `attach` (the `target`
argument, when given, just triggers `attach(target)` afterwards): allocates
wrapper, spinner, banner and close elements, runs `setup()`, and applies
`if (txt) this.msg = txt` (an empty string is falsy in JS).  Returns the new
instance's reference and the new world. -/
def newSmartStatus (txt : Option String) (st : St) : Nat × St :=
  let wr := st.nextId
  let sp := st.nextId + 1
  let bn := st.nextId + 2
  let cl := st.nextId + 3
  let wid := st.nextId + 4
  let bannerHtml : String :=
    match txt with
    | some t => if t = "" then "Loading..." else t
    | none => "Loading..."
  (wid,
    { wrappers := setA wr ⟨"smart-", false, true, none⟩ st.wrappers
      spinners := setA sp ⟨wr, ["fa", "fa-spinner", "fa-spin"]⟩ st.spinners
      banners := setA bn ⟨wr, bannerHtml⟩ st.banners
      closes := setA cl ⟨wr⟩ st.closes
      widgets := setA wid ⟨some wr, some sp, some bn, some cl⟩ st.widgets
      registry := st.registry
      nextId := st.nextId + 5 })

/-- Model of `get msg()`: `this._dom_self.banner.html()`.  On an empty jQuery set or
an unallocated reference the result is modelled as the empty string. -/
def msgGet (wid : Nat) (st : St) : String :=
  match lookupA wid st.widgets with
  | some w =>
    match w.banner with
    | some bn =>
      match lookupA bn st.banners with
      | some be => be.html
      | none => ""
    | none => ""
  | none => ""

/-- Model of `set msg(str)`: `this._dom_self.banner.html(str)`; a no-op on an empty
jQuery set. -/
def msgSet (wid : Nat) (s : String) (st : St) : St :=
  match lookupA wid st.widgets with
  | some w =>
    match w.banner with
    | some bn =>
      match lookupA bn st.banners with
      | some be => { st with banners := setA bn { be with html := s } st.banners }
      | none => st
    | none => st
  | none => st

/-- Model of `$('div[data-id="use_id"]')`: the first wrapper in the document carrying
the given data-id. -/
def findWrapperInDoc (dId : String) (st : St) : Option Nat :=
  (st.wrappers.find? (fun p => p.2.dataId == dId && p.2.inDoc)).map (·.1)

/-- Model of `wrapper.find('span.fa-spinner')`: the first spinner child of `wr` that
still carries the `fa-spinner` class. -/
def findSpinnerChild (wr : Nat) (st : St) : Option Nat :=
  (st.spinners.find? (fun p => p.2.parent == wr && p.2.classes.contains "fa-spinner")).map (·.1)

/-- Model of `wrapper.find('span.smart-status-msg')`: the first banner child of `wr`
(the class is fixed at construction and never removed). -/
def findBannerChild (wr : Nat) (st : St) : Option Nat :=
  (st.banners.find? (fun p => p.2.parent == wr)).map (·.1)

/-- Model of `wrapper.find('span.close')`: the first dismiss control child of `wr`. -/
def findCloseChild (wr : Nat) (st : St) : Option Nat :=
  (st.closes.find? (fun p => p.2.parent == wr)).map (·.1)

/-- Model of `this._dom_self.wrapper.remove()`: detach the widget's wrapper from the
document; a no-op on an empty jQuery set. -/
def wrapperRemove (wid : Nat) (st : St) : St :=
  match lookupA wid st.widgets with
  | some w =>
    match w.wrapper with
    | some wr =>
      match lookupA wr st.wrappers with
      | some we => { st with wrappers := setA wr { we with inDoc := false } st.wrappers }
      | none => st
    | none => st
  | none => st

/-- Model of `this._dom_self.wrapper.attr('data-id')` coerced to a property key:
`attr` on an empty jQuery set is `undefined`, and `obj[undefined]` reads the
property named "undefined". -/
def wrapperKey (wid : Nat) (st : St) : String :=
  match lookupA wid st.widgets with
  | some w =>
    match w.wrapper with
    | some wr =>
      match lookupA wr st.wrappers with
      | some we => we.dataId
      | none => "undefined"
    | none => "undefined"
  | none => "undefined"

/-- Model of `destroy()`: `this._dom_self.wrapper.remove();
delete window._smart_statuses[this._dom_self.wrapper.attr('data-id')]`. -/
def destroy (wid : Nat) (st : St) : St :=
  let key := wrapperKey wid st
  let st1 := wrapperRemove wid st
  { st1 with registry := eraseA key st1.registry }

/-- The three wrapper updates of `attach`'s free-key branch:
`wrapper.css({...})` (presentation, out of scope), `wrapper.appendTo(document.body)`
and `wrapper.attr('data-id', dId)`. -/
def moveWrapperIntoDoc (wid : Nat) (dId : String) (st : St) : St :=
  match lookupA wid st.widgets with
  | some w =>
    match w.wrapper with
    | some wr =>
      match lookupA wr st.wrappers with
      | some we =>
        { st with wrappers := setA wr { we with dataId := dId, inDoc := true } st.wrappers }
      | none => st
    | none => st
  | none => st

/-- Model of `'smart-' + target_id` when `target_id` is `undefined` concatenates the
string "undefined". -/
def attrToString : Option String → String
  | some s => s
  | none => "undefined"

/-- The re-pointed `_dom_self` produced by `attach`'s overwrite branch:
`wrapper = $('div[data-id="use_id"]')` and spinner/banner/close looked up
inside it (each `none` when the jQuery search matches nothing). -/
def owDom (use_id : String) (st : St) : Widget :=
  ⟨findWrapperInDoc use_id st,
    (findWrapperInDoc use_id st).bind (fun wr => findSpinnerChild wr st),
    (findWrapperInDoc use_id st).bind (fun wr => findBannerChild wr st),
    (findWrapperInDoc use_id st).bind (fun wr => findCloseChild wr st)⟩

/-- Model of `attach(target, overwrite)`.  The `target` argument: `none` models a
falsy target or `document.body` (both take the page-level branch); `some a`
models a specific element whose `attr('id')` is `a` (`none` when the id
attribute is absent).  Returns the JS return value (`some wid` for `this`,
`none` for `false`) and the new world. -/
def attach (wid : Nat) (target : Option (Option String)) (overwrite : Bool) (st : St) :
    Option Nat × St :=
  match lookupA wid st.widgets with
  | none => (none, st)
  | some _ =>
    match target with
    | some targetId =>
      if targetId = some "" then
        -- console.error('SmartStatus cannot use target with no id'); this.destroy(); return false
        (none, destroy wid st)
      else
        let use_id := "smart-" ++ attrToString targetId
        if (find use_id st).isNone then
          -- generated id available to use; apply changes, then update global store
          let st1 := moveWrapperIntoDoc wid use_id st
          (some wid, { st1 with registry := setA use_id wid st1.registry })
        else if overwrite then
          -- store updated message, overwrite existing elements, restore message
          let restore_msg := msgGet wid st
          let st1 := { st with widgets := setA wid (owDom use_id st) st.widgets }
          let st2 := msgSet wid restore_msg st1
          (some wid, { st2 with registry := setA use_id wid st2.registry })
        else
          -- console.error('Cannot attach new SmartStatus on used target'); return false
          (none, st)
    | none =>
      if (find "_global_smart_status_" st).isNone then
        let st1 := moveWrapperIntoDoc wid "_global_smart_status_" st
        (some wid, { st1 with registry := setA "_global_smart_status_" wid st1.registry })
      else
        -- console.error('Cannot attach new SmartStatus on used global target'); return false
        (none, st)

/-- Model of `spinner.removeClass(c)`: drop every occurrence of the class. -/
def spinnerRemoveClass (wid : Nat) (c : String) (st : St) : St :=
  match lookupA wid st.widgets with
  | some w =>
    match w.spinner with
    | some sp =>
      match lookupA sp st.spinners with
      | some se =>
        { st with spinners := setA sp { se with classes := se.classes.filter (· != c) } st.spinners }
      | none => st
    | none => st
  | none => st

/-- Model of `spinner.addClass(c)`: append the class when not already present. -/
def spinnerAddClass (wid : Nat) (c : String) (st : St) : St :=
  match lookupA wid st.widgets with
  | some w =>
    match w.spinner with
    | some sp =>
      match lookupA sp st.spinners with
      | some se =>
        let cs := if se.classes.contains c then se.classes else se.classes ++ [c]
        { st with spinners := setA sp { se with classes := cs } st.spinners }
      | none => st
    | none => st
  | none => st

/-- Model of `spinner.attr('class', s)`: replace the class list wholesale. -/
def spinnerSetClasses (wid : Nat) (cs : List String) (st : St) : St :=
  match lookupA wid st.widgets with
  | some w =>
    match w.spinner with
    | some sp =>
      match lookupA sp st.spinners with
      | some se => { st with spinners := setA sp { se with classes := cs } st.spinners }
      | none => st
    | none => st
  | none => st

/-- An update of the widget's wrapper element, shared by `show` and `hide`. -/
def updWrapperOf (wid : Nat) (f : WrapperE → WrapperE) (st : St) : St :=
  match lookupA wid st.widgets with
  | some w =>
    match w.wrapper with
    | some wr =>
      match lookupA wr st.wrappers with
      | some we => { st with wrappers := setA wr (f we) st.wrappers }
      | none => st
    | none => st
  | none => st

/-- Model of `reset()`: `this.msg = 'Loading...';
this._dom_self.spinner.attr('class', 'fa fa-spinner fa-spin'); return this`. -/
def reset (wid : Nat) (st : St) : Nat × St :=
  let st1 := msgSet wid "Loading..." st
  (wid, spinnerSetClasses wid ["fa", "fa-spinner", "fa-spin"] st1)

/-- Model of `show(txt)`: `if (txt) this.msg = txt;
this._dom_self.wrapper.fadeIn('slow'); return this`.  (`show` is a Lean
keyword, hence the trailing underscore.) -/
def show_ (wid : Nat) (txt : Option String) (st : St) : Nat × St :=
  let st1 :=
    match txt with
    | some t => if t = "" then st else msgSet wid t st
    | none => st
  (wid, updWrapperOf wid (fun we => { we with visible := true }) st1)

/-- Model of `hide(duration)`: `this._dom_self.wrapper.fadeOut(duration ? duration : 1500);
return this`.  A missing duration — and, `0` being falsy, a zero one — fades
over 1500 ms. -/
def hide (wid : Nat) (duration : Option Nat) (st : St) : Nat × St :=
  let d : Nat :=
    match duration with
    | some n => if n = 0 then 1500 else n
    | none => 1500
  (wid, updWrapperOf wid
    (fun we => { we with visible := false, lastFadeOut := some (FadeDur.ms d) }) st)

/-- Model of `final(txt, success)`: strip the spinner classes, write `txt` on the
banner, add the check-mark class on success and the warning-triangle class
otherwise (an omitted `success` is falsy), return `this`. -/
def final (wid : Nat) (txt : String) (success : Bool) (st : St) : Nat × St :=
  let st1 := spinnerRemoveClass wid "fa-spinner" st
  let st2 := spinnerRemoveClass wid "fa-spin" st1
  let st3 := msgSet wid txt st2
  let st4 :=
    if success then spinnerAddClass wid "fa-check" st3
    else spinnerAddClass wid "fa-exclamation-triangle" st3
  (wid, st4)

/-- The click handler installed on the dismiss control in the constructor:
`$(this).parent().fadeOut('slow')`. -/
def clickClose (cl : Nat) (st : St) : St :=
  match lookupA cl st.closes with
  | some ce =>
    match lookupA ce.parent st.wrappers with
    | some we =>
      let we' := { we with visible := false, lastFadeOut := some FadeDur.slow }
      { st with wrappers := setA ce.parent we' st.wrappers }
    | none => st
  | none => st

/-! Concrete states used by the witnesses: the spec's §8 scenario.
Widget 4 ("Uploading") is built on a fresh page and attached to `#btn1`;
widget 9 ("Retrying") is built next to it. -/

/-- Widget 4, message "Uploading", freshly constructed. -/
def stW0 : St := (newSmartStatus (some "Uploading") initSt).2

/-- Widget 4 attached to the element with id `btn1`. -/
def stW1 : St := (attach 4 (some (some "btn1")) false stW0).2

/-- Widget 9, message "Retrying", constructed next to the attached widget 4. -/
def stW2 : St := (newSmartStatus (some "Retrying") stW1).2

/-! ### Association-list lemmas -/

theorem lookupA_setA_self {κ α : Type} [DecidableEq κ] (k : κ) (v : α) (l : List (κ × α)) :
    lookupA k (setA k v l) = some v := by
  induction l with
  | nil => simp [setA, lookupA]
  | cons p rest ih =>
    by_cases h : p.1 = k
    · simp [setA, lookupA, h]
    · simp [setA, lookupA, h, ih]

theorem lookupA_setA_ne {κ α : Type} [DecidableEq κ] {k k' : κ} (v : α) (l : List (κ × α))
    (h : k' ≠ k) : lookupA k (setA k' v l) = lookupA k l := by
  induction l with
  | nil => simp [setA, lookupA, h]
  | cons p rest ih =>
    by_cases hp : p.1 = k'
    · simp [setA, lookupA, hp, h]
    · simp [setA, lookupA, hp, ih]

theorem lookupA_eraseA_ne {κ α : Type} [DecidableEq κ] {k k' : κ} (l : List (κ × α))
    (h : k' ≠ k) : lookupA k (eraseA k' l) = lookupA k l := by
  induction l with
  | nil => simp [eraseA, lookupA]
  | cons p rest ih =>
    by_cases hp : p.1 = k'
    · simp [eraseA, lookupA, hp, h, Ne.symm h]
    · simp [eraseA, lookupA, hp, ih]

theorem lookupA_eraseA_self {κ α : Type} [DecidableEq κ] (k : κ) {l : List (κ × α)}
    (h : keysNodup l) : lookupA k (eraseA k l) = none := by
  induction l with
  | nil => simp [eraseA, lookupA]
  | cons p rest ih =>
    rw [keysNodup, List.map_cons, List.nodup_cons] at h
    by_cases hp : p.1 = k
    · rw [eraseA, if_pos hp]
      subst hp
      clear ih
      induction rest with
      | nil => simp [lookupA]
      | cons q rest' ih' =>
        rw [lookupA]
        have hq : q.1 ≠ p.1 := by
          intro hqe
          exact h.1 (by simp [hqe])
        rw [if_neg (by simpa using hq)]
        exact ih' ⟨fun hm => h.1 (List.mem_cons_of_mem _ hm), h.2.of_cons⟩
    · rw [eraseA, if_neg hp, lookupA, if_neg hp]
      exact ih h.2

theorem mem_setA {κ α : Type} [DecidableEq κ] {q : κ × α} {k : κ} {v : α} {l : List (κ × α)}
    (hq : q ∈ setA k v l) : q = (k, v) ∨ q ∈ l := by
  induction l with
  | nil => simp [setA] at hq; exact Or.inl hq
  | cons r rest ih =>
    rw [setA] at hq
    by_cases hr : r.1 = k
    · rw [if_pos hr] at hq
      rcases List.mem_cons.mp hq with h1 | h1
      · exact Or.inl h1
      · exact Or.inr (List.mem_cons_of_mem _ h1)
    · rw [if_neg hr] at hq
      rcases List.mem_cons.mp hq with h1 | h1
      · exact Or.inr (List.mem_cons.mpr (Or.inl h1))
      · rcases ih h1 with h2 | h2
        · exact Or.inl h2
        · exact Or.inr (List.mem_cons_of_mem _ h2)

theorem keysNodup_setA {κ α : Type} [DecidableEq κ] (k : κ) (v : α) {l : List (κ × α)}
    (h : keysNodup l) : keysNodup (setA k v l) := by
  induction l with
  | nil => simp [setA, keysNodup]
  | cons p rest ih =>
    rw [keysNodup, List.map_cons, List.nodup_cons] at h
    by_cases hp : p.1 = k
    · rw [setA, if_pos hp, keysNodup, List.map_cons, List.nodup_cons]
      exact ⟨by simpa [hp] using h.1, h.2⟩
    · rw [setA, if_neg hp, keysNodup, List.map_cons, List.nodup_cons]
      refine ⟨?_, ih h.2⟩
      intro hm
      rcases List.mem_map.mp hm with ⟨q, hq, hqe⟩
      rcases mem_setA hq with h1 | h1
      · exact hp (by rw [← hqe, h1])
      · exact h.1 (hqe ▸ List.mem_map_of_mem Prod.fst h1)

/-! ### Frame lemmas: which parts of the world each operation can touch -/

theorem moveWrapperIntoDoc_registry (wid : Nat) (dId : String) (st : St) :
    (moveWrapperIntoDoc wid dId st).registry = st.registry := by
  unfold moveWrapperIntoDoc
  repeat' split
  all_goals rfl

theorem moveWrapperIntoDoc_widgets (wid : Nat) (dId : String) (st : St) :
    (moveWrapperIntoDoc wid dId st).widgets = st.widgets := by
  unfold moveWrapperIntoDoc
  repeat' split
  all_goals rfl

theorem moveWrapperIntoDoc_banners (wid : Nat) (dId : String) (st : St) :
    (moveWrapperIntoDoc wid dId st).banners = st.banners := by
  unfold moveWrapperIntoDoc
  repeat' split
  all_goals rfl

theorem moveWrapperIntoDoc_spinners (wid : Nat) (dId : String) (st : St) :
    (moveWrapperIntoDoc wid dId st).spinners = st.spinners := by
  unfold moveWrapperIntoDoc
  repeat' split
  all_goals rfl

theorem msgSet_registry (wid : Nat) (s : String) (st : St) :
    (msgSet wid s st).registry = st.registry := by
  unfold msgSet
  repeat' split
  all_goals rfl

theorem msgSet_widgets (wid : Nat) (s : String) (st : St) :
    (msgSet wid s st).widgets = st.widgets := by
  unfold msgSet
  repeat' split
  all_goals rfl

theorem msgSet_wrappers (wid : Nat) (s : String) (st : St) :
    (msgSet wid s st).wrappers = st.wrappers := by
  unfold msgSet
  repeat' split
  all_goals rfl

theorem msgSet_spinners (wid : Nat) (s : String) (st : St) :
    (msgSet wid s st).spinners = st.spinners := by
  unfold msgSet
  repeat' split
  all_goals rfl

theorem wrapperRemove_registry (wid : Nat) (st : St) :
    (wrapperRemove wid st).registry = st.registry := by
  unfold wrapperRemove
  repeat' split
  all_goals rfl

theorem wrapperRemove_widgets (wid : Nat) (st : St) :
    (wrapperRemove wid st).widgets = st.widgets := by
  unfold wrapperRemove
  repeat' split
  all_goals rfl

theorem destroy_registry (wid : Nat) (st : St) :
    (destroy wid st).registry = eraseA (wrapperKey wid st) st.registry := by
  simp [destroy, wrapperRemove_registry]

theorem destroy_widgets (wid : Nat) (st : St) :
    (destroy wid st).widgets = st.widgets := by
  simp [destroy, wrapperRemove_widgets]

theorem updWrapperOf_registry (wid : Nat) (f : WrapperE → WrapperE) (st : St) :
    (updWrapperOf wid f st).registry = st.registry := by
  unfold updWrapperOf
  repeat' split
  all_goals rfl

theorem updWrapperOf_widgets (wid : Nat) (f : WrapperE → WrapperE) (st : St) :
    (updWrapperOf wid f st).widgets = st.widgets := by
  unfold updWrapperOf
  repeat' split
  all_goals rfl

theorem updWrapperOf_banners (wid : Nat) (f : WrapperE → WrapperE) (st : St) :
    (updWrapperOf wid f st).banners = st.banners := by
  unfold updWrapperOf
  repeat' split
  all_goals rfl

theorem updWrapperOf_spinners (wid : Nat) (f : WrapperE → WrapperE) (st : St) :
    (updWrapperOf wid f st).spinners = st.spinners := by
  unfold updWrapperOf
  repeat' split
  all_goals rfl

theorem updWrapperOf_closes (wid : Nat) (f : WrapperE → WrapperE) (st : St) :
    (updWrapperOf wid f st).closes = st.closes := by
  unfold updWrapperOf
  repeat' split
  all_goals rfl

theorem clickClose_registry (cl : Nat) (st : St) :
    (clickClose cl st).registry = st.registry := by
  unfold clickClose
  repeat' split
  all_goals rfl

theorem clickClose_widgets (cl : Nat) (st : St) :
    (clickClose cl st).widgets = st.widgets := by
  unfold clickClose
  repeat' split
  all_goals rfl

theorem clickClose_banners (cl : Nat) (st : St) :
    (clickClose cl st).banners = st.banners := by
  unfold clickClose
  repeat' split
  all_goals rfl

theorem clickClose_spinners (cl : Nat) (st : St) :
    (clickClose cl st).spinners = st.spinners := by
  unfold clickClose
  repeat' split
  all_goals rfl

/-! ### Branch equations for `attach`, `destroy` and the element updates -/

theorem wrapperKey_eq (st : St) (wid wr : Nat) (w : Widget) (we : WrapperE)
    (hw : lookupA wid st.widgets = some w) (hwr : w.wrapper = some wr)
    (hwe : lookupA wr st.wrappers = some we) :
    wrapperKey wid st = we.dataId := by
  simp [wrapperKey, hw, hwr, hwe]

theorem wrapperRemove_eq (st : St) (wid wr : Nat) (w : Widget) (we : WrapperE)
    (hw : lookupA wid st.widgets = some w) (hwr : w.wrapper = some wr)
    (hwe : lookupA wr st.wrappers = some we) :
    wrapperRemove wid st =
      { st with wrappers := setA wr { we with inDoc := false } st.wrappers } := by
  simp [wrapperRemove, hw, hwr, hwe]

theorem updWrapperOf_eq (st : St) (wid wr : Nat) (w : Widget) (we : WrapperE)
    (f : WrapperE → WrapperE)
    (hw : lookupA wid st.widgets = some w) (hwr : w.wrapper = some wr)
    (hwe : lookupA wr st.wrappers = some we) :
    updWrapperOf wid f st = { st with wrappers := setA wr (f we) st.wrappers } := by
  simp [updWrapperOf, hw, hwr, hwe]

theorem attach_empty_id (st : St) (wid : Nat) (w : Widget) (ow : Bool)
    (hw : lookupA wid st.widgets = some w) :
    attach wid (some (some "")) ow st = (none, destroy wid st) := by
  simp [attach, hw]

theorem attach_free (st : St) (wid : Nat) (w : Widget) (tid : Option String) (ow : Bool)
    (hw : lookupA wid st.widgets = some w) (hne : tid ≠ some "")
    (hfree : find ("smart-" ++ attrToString tid) st = none) :
    attach wid (some tid) ow st =
      (some wid,
        { moveWrapperIntoDoc wid ("smart-" ++ attrToString tid) st with
            registry := setA ("smart-" ++ attrToString tid) wid st.registry }) := by
  simp [attach, hw, hne, hfree, moveWrapperIntoDoc_registry]

theorem attach_taken_noow (st : St) (wid v : Nat) (w : Widget) (tid : Option String)
    (hw : lookupA wid st.widgets = some w) (hne : tid ≠ some "")
    (htaken : find ("smart-" ++ attrToString tid) st = some v) :
    attach wid (some tid) false st = (none, st) := by
  simp [attach, hw, hne, htaken]

theorem attach_ow_state (st : St) (wid v : Nat) (w : Widget) (tid : Option String)
    (hw : lookupA wid st.widgets = some w) (hne : tid ≠ some "")
    (htaken : find ("smart-" ++ attrToString tid) st = some v) :
    attach wid (some tid) true st =
      (some wid,
        { msgSet wid (msgGet wid st)
              { st with widgets := setA wid (owDom ("smart-" ++ attrToString tid) st) st.widgets } with
          registry := setA ("smart-" ++ attrToString tid) wid st.registry }) := by
  simp [attach, hw, hne, htaken, msgSet_registry]

theorem attach_body_free (st : St) (wid : Nat) (w : Widget) (ow : Bool)
    (hw : lookupA wid st.widgets = some w)
    (hfree : find "_global_smart_status_" st = none) :
    attach wid none ow st =
      (some wid,
        { moveWrapperIntoDoc wid "_global_smart_status_" st with
            registry := setA "_global_smart_status_" wid st.registry }) := by
  simp [attach, hw, hfree, moveWrapperIntoDoc_registry]

theorem attach_body_taken (st : St) (wid v : Nat) (w : Widget) (ow : Bool)
    (hw : lookupA wid st.widgets = some w)
    (htaken : find "_global_smart_status_" st = some v) :
    attach wid none ow st = (none, st) := by
  simp [attach, hw, htaken]

/-! ### The claims -/

/-- C1: for every target element whose identifier is a non-empty string, a
first `attach(target)` without overwrite while the key `"smart-" + id` is
unregistered returns the widget itself and inserts it into the registry
under that key; a second attach to a target with the same identifier,
without overwrite, returns the falsy failure indicator and leaves the whole
state (in particular the registry) exactly as it was. -/
theorem attach_once_then_fail (st : St) (wid wid2 : Nat) (w w2 : Widget) (id : String)
    (hid : id ≠ "")
    (hw : lookupA wid st.widgets = some w)
    (hw2 : lookupA wid2 st.widgets = some w2)
    (hfree : find ("smart-" ++ id) st = none) :
    (attach wid (some (some id)) false st).1 = some wid ∧
    find ("smart-" ++ id) (attach wid (some (some id)) false st).2 = some wid ∧
    (attach wid2 (some (some id)) false (attach wid (some (some id)) false st).2).1 = none ∧
    (attach wid2 (some (some id)) false (attach wid (some (some id)) false st).2).2 =
      (attach wid (some (some id)) false st).2 := by
  have hne : (some id : Option String) ≠ some "" := by simpa using hid
  have hfree' : find ("smart-" ++ attrToString (some id)) st = none := by
    simpa [attrToString] using hfree
  have h1 := attach_free st wid w (some id) false hw hne hfree'
  have hreg1 : find ("smart-" ++ id) (attach wid (some (some id)) false st).2 = some wid := by
    rw [h1]
    simp [find, attrToString, lookupA_setA_self]
  have hwid2 : lookupA wid2 (attach wid (some (some id)) false st).2.widgets = some w2 := by
    rw [h1]
    simpa [moveWrapperIntoDoc_widgets] using hw2
  have hreg1' :
      find ("smart-" ++ attrToString (some id)) (attach wid (some (some id)) false st).2 =
        some wid := by
    simpa [attrToString] using hreg1
  have h2 := attach_taken_noow (attach wid (some (some id)) false st).2 wid2 wid w2 (some id)
    hwid2 hne hreg1'
  exact ⟨by rw [h1], hreg1, by rw [h2], by rw [h2]⟩

/-- Witness for C1 at the spec's §8 scenario: widget 4 attaching twice to
the element with id `btn1` on a fresh page. -/
theorem attach_once_then_fail_witness :
    ("btn1" : String) ≠ "" ∧
    lookupA 4 stW0.widgets = some ⟨some 0, some 1, some 2, some 3⟩ ∧
    find ("smart-" ++ "btn1") stW0 = none ∧
    ((attach 4 (some (some "btn1")) false stW0).1 = some 4 ∧
      find ("smart-" ++ "btn1") (attach 4 (some (some "btn1")) false stW0).2 = some 4 ∧
      (attach 4 (some (some "btn1")) false (attach 4 (some (some "btn1")) false stW0).2).1 =
        none ∧
      (attach 4 (some (some "btn1")) false (attach 4 (some (some "btn1")) false stW0).2).2 =
        (attach 4 (some (some "btn1")) false stW0).2) :=
  ⟨by decide, by decide, by decide,
    attach_once_then_fail stW0 4 4 ⟨some 0, some 1, some 2, some 3⟩
      ⟨some 0, some 1, some 2, some 3⟩ "btn1" (by decide) (by decide) (by decide) (by decide)⟩

/-- C10: a target element with no id attribute at all does not take the
failure branch: `attach` proceeds under the fixed key `"smart-undefined"`
('smart-' + undefined), and a second id-less attach without overwrite then
fails on that same shared key, leaving the state unchanged. -/
theorem attach_absent_id_shared_key (st : St) (wid wid2 : Nat) (w w2 : Widget)
    (hw : lookupA wid st.widgets = some w)
    (hw2 : lookupA wid2 st.widgets = some w2)
    (hfree : find "smart-undefined" st = none) :
    (attach wid (some none) false st).1 = some wid ∧
    find "smart-undefined" (attach wid (some none) false st).2 = some wid ∧
    (attach wid2 (some none) false (attach wid (some none) false st).2).1 = none ∧
    (attach wid2 (some none) false (attach wid (some none) false st).2).2 =
      (attach wid (some none) false st).2 := by
  have hne : (none : Option String) ≠ some "" := by simp
  have hfree' : find ("smart-" ++ attrToString none) st = none := by
    simpa [attrToString] using hfree
  have h1 := attach_free st wid w none false hw hne hfree'
  have hreg1 : find "smart-undefined" (attach wid (some none) false st).2 = some wid := by
    rw [h1]
    simp [find, attrToString, lookupA_setA_self]
  have hwid2 : lookupA wid2 (attach wid (some none) false st).2.widgets = some w2 := by
    rw [h1]
    simpa [moveWrapperIntoDoc_widgets] using hw2
  have hreg1' :
      find ("smart-" ++ attrToString none) (attach wid (some none) false st).2 = some wid := by
    simpa [attrToString] using hreg1
  have h2 := attach_taken_noow (attach wid (some none) false st).2 wid2 wid w2 none
    hwid2 hne hreg1'
  exact ⟨by rw [h1], hreg1, by rw [h2], by rw [h2]⟩

/-- Witness for C10: widget 4 on a fresh page, attached to an id-less
element, then a second id-less attach fails. -/
theorem attach_absent_id_shared_key_witness :
    lookupA 4 stW0.widgets = some ⟨some 0, some 1, some 2, some 3⟩ ∧
    find "smart-undefined" stW0 = none ∧
    ((attach 4 (some none) false stW0).1 = some 4 ∧
      find "smart-undefined" (attach 4 (some none) false stW0).2 = some 4 ∧
      (attach 4 (some none) false (attach 4 (some none) false stW0).2).1 = none ∧
      (attach 4 (some none) false (attach 4 (some none) false stW0).2).2 =
        (attach 4 (some none) false stW0).2) :=
  ⟨by decide, by decide,
    attach_absent_id_shared_key stW0 4 4 ⟨some 0, some 1, some 2, some 3⟩
      ⟨some 0, some 1, some 2, some 3⟩ (by decide) (by decide) (by decide)⟩

/-- C4: page-level attaches (target omitted or the document body).  When
the sentinel key `_global_smart_status_` is free, attach registers the
widget under it and returns the widget; when it is taken, attach — with
either overwrite argument — returns the failure indicator and mutates
nothing (the whole state is returned unchanged).  Since the registry maps
each key to at most one widget, at most one widget holds the sentinel key
at any time. -/
theorem page_level_attach (st1 st2 : St) (wid1 wid2 v : Nat) (w1 w2 : Widget)
    (ow1 ow2 : Bool)
    (hw1 : lookupA wid1 st1.widgets = some w1)
    (hw2 : lookupA wid2 st2.widgets = some w2)
    (hfree : find "_global_smart_status_" st1 = none)
    (htaken : find "_global_smart_status_" st2 = some v) :
    (attach wid1 none ow1 st1).1 = some wid1 ∧
    find "_global_smart_status_" (attach wid1 none ow1 st1).2 = some wid1 ∧
    attach wid2 none ow2 st2 = (none, st2) := by
  have h1 := attach_body_free st1 wid1 w1 ow1 hw1 hfree
  refine ⟨by rw [h1], ?_, attach_body_taken st2 wid2 v w2 ow2 hw2 htaken⟩
  rw [h1]
  simp [find, lookupA_setA_self]

/-- Witness for C4: widget 4 takes the sentinel key on a fresh page, and a
second page-level attach — even with overwrite — fails without mutation. -/
theorem page_level_attach_witness :
    lookupA 4 stW0.widgets = some ⟨some 0, some 1, some 2, some 3⟩ ∧
    lookupA 4 (attach 4 none true stW0).2.widgets = some ⟨some 0, some 1, some 2, some 3⟩ ∧
    find "_global_smart_status_" stW0 = none ∧
    find "_global_smart_status_" (attach 4 none true stW0).2 = some 4 ∧
    ((attach 4 none true stW0).1 = some 4 ∧
      find "_global_smart_status_" (attach 4 none true stW0).2 = some 4 ∧
      attach 4 none true (attach 4 none true stW0).2 = (none, (attach 4 none true stW0).2)) :=
  ⟨by decide, by decide, by decide, by decide,
    page_level_attach stW0 (attach 4 none true stW0).2 4 4 4
      ⟨some 0, some 1, some 2, some 3⟩ ⟨some 0, some 1, some 2, some 3⟩ true true
      (by decide) (by decide) (by decide) (by decide)⟩

/-- C2, counterexample: the claim says attach to a target whose identifier
is empty OR ABSENT always fails with no registry entry; but on a fresh page
a target with an absent id attribute (`attr('id')` = undefined) is attached
successfully — only the exact empty string takes the failure branch — and a
registry entry appears under `"smart-undefined"`. -/
theorem attach_absent_id_succeeds_cex :
    (attach 4 (some none) false stW0).1 = some 4 ∧
    find "smart-undefined" (attach 4 (some none) false stW0).2 = some 4 := by
  exact ⟨by decide, by decide⟩

/-- C2, amended: for every call `attach(target)` where the target element's
identifier is the empty string (the absent case instead proceeds under the
key `"smart-undefined"`), attach returns the failure indicator and the
widget destroys itself: its container leaves the document and the registry
entry under the container's current data-id is deleted; no key gains an
entry that was not there before (so no entry is created). -/
theorem attach_empty_id_self_destroys (st : St) (wid wr : Nat) (w : Widget) (we : WrapperE)
    (ow : Bool)
    (hw : lookupA wid st.widgets = some w)
    (hwr : w.wrapper = some wr)
    (hwe : lookupA wr st.wrappers = some we)
    (hnd : keysNodup st.registry) :
    (attach wid (some (some "")) ow st).1 = none ∧
    (attach wid (some (some "")) ow st).2 = destroy wid st ∧
    lookupA wr (attach wid (some (some "")) ow st).2.wrappers =
      some { we with inDoc := false } ∧
    find we.dataId (attach wid (some (some "")) ow st).2 = none ∧
    (∀ k v, find k (attach wid (some (some "")) ow st).2 = some v → find k st = some v) := by
  have h1 := attach_empty_id st wid w ow hw
  have hkey := wrapperKey_eq st wid wr w we hw hwr hwe
  have hrem := wrapperRemove_eq st wid wr w we hw hwr hwe
  have hwrap : lookupA wr (destroy wid st).wrappers = some { we with inDoc := false } := by
    unfold destroy
    rw [hrem]
    simp [lookupA_setA_self]
  have hregv : (destroy wid st).registry = eraseA we.dataId st.registry := by
    rw [destroy_registry, hkey]
  refine ⟨by rw [h1], by rw [h1], by rw [h1]; exact hwrap, ?_, ?_⟩
  · rw [h1]
    show find we.dataId (destroy wid st) = none
    unfold find
    rw [hregv]
    exact lookupA_eraseA_self we.dataId hnd
  · intro k v hk
    rw [h1] at hk
    unfold find at hk ⊢
    rw [hregv] at hk
    by_cases hkk : k = we.dataId
    · rw [hkk, lookupA_eraseA_self we.dataId hnd] at hk
      exact absurd hk (by simp)
    · rwa [lookupA_eraseA_ne st.registry (fun h => hkk h.symm)] at hk

/-- Witness for the amended C2: widget 4, already attached to `#btn1`,
attaches to a target whose id is the empty string; it self-destroys and its
old entry disappears. -/
theorem attach_empty_id_self_destroys_witness :
    lookupA 4 stW1.widgets = some ⟨some 0, some 1, some 2, some 3⟩ ∧
    lookupA 0 stW1.wrappers = some ⟨"smart-btn1", true, true, none⟩ ∧
    keysNodup stW1.registry ∧
    ((attach 4 (some (some "")) false stW1).1 = none ∧
      (attach 4 (some (some "")) false stW1).2 = destroy 4 stW1 ∧
      lookupA 0 (attach 4 (some (some "")) false stW1).2.wrappers =
        some ⟨"smart-btn1", false, true, none⟩ ∧
      find "smart-btn1" (attach 4 (some (some "")) false stW1).2 = none ∧
      (∀ k v, find k (attach 4 (some (some "")) false stW1).2 = some v →
        find k stW1 = some v)) :=
  ⟨by decide, by decide, by decide,
    attach_empty_id_self_destroys stW1 4 0 ⟨some 0, some 1, some 2, some 3⟩
      ⟨"smart-btn1", true, true, none⟩ false (by decide) (by decide) (by decide) (by decide)⟩

/-- C5: a widget registered under `"smart-" + id` whose container carries
that key; after `destroy()` the key is unregistered, and a subsequent
attach by any widget to a target with the same identifier, without
overwrite, succeeds: it returns the attaching widget and registers it under
the key. -/
theorem destroy_then_attach_succeeds (st : St) (wid wid2 wr : Nat) (w w2 : Widget)
    (we : WrapperE) (id : String)
    (hid : id ≠ "")
    (hw : lookupA wid st.widgets = some w)
    (hwr : w.wrapper = some wr)
    (hwe : lookupA wr st.wrappers = some we)
    (hdid : we.dataId = "smart-" ++ id)
    (_hreg : find ("smart-" ++ id) st = some wid)
    (hnd : keysNodup st.registry)
    (hw2 : lookupA wid2 st.widgets = some w2) :
    find ("smart-" ++ id) (destroy wid st) = none ∧
    (attach wid2 (some (some id)) false (destroy wid st)).1 = some wid2 ∧
    find ("smart-" ++ id) (attach wid2 (some (some id)) false (destroy wid st)).2 =
      some wid2 := by
  have hkey := wrapperKey_eq st wid wr w we hw hwr hwe
  have hfree : find ("smart-" ++ id) (destroy wid st) = none := by
    unfold find
    rw [destroy_registry, hkey, hdid]
    exact lookupA_eraseA_self _ hnd
  have hne : (some id : Option String) ≠ some "" := by simpa using hid
  have hw2' : lookupA wid2 (destroy wid st).widgets = some w2 := by
    rw [destroy_widgets]; exact hw2
  have hfree' : find ("smart-" ++ attrToString (some id)) (destroy wid st) = none := by
    simpa [attrToString] using hfree
  have h2 := attach_free (destroy wid st) wid2 w2 (some id) false hw2' hne hfree'
  refine ⟨hfree, by rw [h2], ?_⟩
  rw [h2]
  simp [find, attrToString, lookupA_setA_self]

/-- Witness for C5: destroy widget 4 (attached to `#btn1`), then widget 9
attaches to `#btn1` successfully. -/
theorem destroy_then_attach_succeeds_witness :
    ("btn1" : String) ≠ "" ∧
    lookupA 4 stW2.widgets = some ⟨some 0, some 1, some 2, some 3⟩ ∧
    lookupA 0 stW2.wrappers = some ⟨"smart-btn1", true, true, none⟩ ∧
    find ("smart-" ++ "btn1") stW2 = some 4 ∧
    keysNodup stW2.registry ∧
    lookupA 9 stW2.widgets = some ⟨some 5, some 6, some 7, some 8⟩ ∧
    (find ("smart-" ++ "btn1") (destroy 4 stW2) = none ∧
      (attach 9 (some (some "btn1")) false (destroy 4 stW2)).1 = some 9 ∧
      find ("smart-" ++ "btn1") (attach 9 (some (some "btn1")) false (destroy 4 stW2)).2 =
        some 9) :=
  ⟨by decide, by decide, by decide, by decide, by decide, by decide,
    destroy_then_attach_succeeds stW2 4 9 0 ⟨some 0, some 1, some 2, some 3⟩
      ⟨some 5, some 6, some 7, some 8⟩ ⟨"smart-btn1", true, true, none⟩ "btn1"
      (by decide) (by decide) (by decide) (by decide) (by decide) (by decide) (by decide)
      (by decide)⟩

/-! ### Helpers shared by the state-display claims -/

theorem setA_setA {κ α : Type} [DecidableEq κ] (k : κ) (v v' : α) (l : List (κ × α)) :
    setA k v (setA k v' l) = setA k v l := by
  induction l with
  | nil => simp [setA]
  | cons p rest ih =>
    by_cases h : p.1 = k
    · simp [setA, h]
    · simp [setA, h, ih]

theorem msgGet_eq_of (st st' : St) (w2 : Nat) (hw : st'.widgets = st.widgets)
    (hb : st'.banners = st.banners) : msgGet w2 st' = msgGet w2 st := by
  unfold msgGet
  rw [hw, hb]

theorem addClass_mem (c : String) (l : List String) :
    c ∈ (if l.contains c then l else l ++ [c]) := by
  by_cases h : c ∈ l <;> simp [h]

theorem addClass_not_mem (x c : String) (l : List String) (hx : x ∉ l) (hxc : x ≠ c) :
    x ∉ (if l.contains c then l else l ++ [c]) := by
  by_cases h : c ∈ l <;> simp [h, hx, hxc]

theorem filter_bne_not_mem (c : String) (l : List String) :
    c ∉ l.filter (· != c) := by
  intro h
  have h2 := (List.mem_filter.mp h).2
  simp at h2

theorem final_true_spinners (st : St) (wid sp bn : Nat) (w : Widget) (se : SpinnerE)
    (be : BannerE) (t : String)
    (hw : lookupA wid st.widgets = some w)
    (hsp : w.spinner = some sp)
    (hse : lookupA sp st.spinners = some se)
    (hbn : w.banner = some bn)
    (hbe : lookupA bn st.banners = some be) :
    (final wid t true st).1 = wid ∧
    msgGet wid (final wid t true st).2 = t ∧
    lookupA sp (final wid t true st).2.spinners =
      some ⟨se.parent,
        (fun l => if l.contains "fa-check" then l else l ++ ["fa-check"])
          ((se.classes.filter (· != "fa-spinner")).filter (· != "fa-spin"))⟩ := by
  simp [final, spinnerRemoveClass, spinnerAddClass, msgSet, msgGet, hw, hsp, hse, hbn, hbe,
    lookupA_setA_self, setA_setA]

theorem final_false_spinners (st : St) (wid sp bn : Nat) (w : Widget) (se : SpinnerE)
    (be : BannerE) (t : String)
    (hw : lookupA wid st.widgets = some w)
    (hsp : w.spinner = some sp)
    (hse : lookupA sp st.spinners = some se)
    (hbn : w.banner = some bn)
    (hbe : lookupA bn st.banners = some be) :
    (final wid t false st).1 = wid ∧
    msgGet wid (final wid t false st).2 = t ∧
    lookupA sp (final wid t false st).2.spinners =
      some ⟨se.parent,
        (fun l => if l.contains "fa-exclamation-triangle" then l
          else l ++ ["fa-exclamation-triangle"])
          ((se.classes.filter (· != "fa-spinner")).filter (· != "fa-spin"))⟩ := by
  simp [final, spinnerRemoveClass, spinnerAddClass, msgSet, msgGet, hw, hsp, hse, hbn, hbe,
    lookupA_setA_self, setA_setA]

/-- C6: for every widget and text `t`: `final(t, true)` sets the message to
`t`, removes the spinner styling (`fa-spinner`, `fa-spin`) and puts the
success icon class (`fa-check`) on the indicator; `final(t, false)` — the
omitted-argument call being falsy too — does the same with the failure icon
class (`fa-exclamation-triangle`); both return the widget itself. -/
theorem final_message_and_icon (st : St) (wid sp bn : Nat) (w : Widget) (se : SpinnerE)
    (be : BannerE) (t : String)
    (hw : lookupA wid st.widgets = some w)
    (hsp : w.spinner = some sp)
    (hse : lookupA sp st.spinners = some se)
    (hbn : w.banner = some bn)
    (hbe : lookupA bn st.banners = some be) :
    ((final wid t true st).1 = wid ∧
      msgGet wid (final wid t true st).2 = t ∧
      ∃ cs, lookupA sp (final wid t true st).2.spinners = some ⟨se.parent, cs⟩ ∧
        "fa-check" ∈ cs ∧ "fa-spinner" ∉ cs ∧ "fa-spin" ∉ cs) ∧
    ((final wid t false st).1 = wid ∧
      msgGet wid (final wid t false st).2 = t ∧
      ∃ cs, lookupA sp (final wid t false st).2.spinners = some ⟨se.parent, cs⟩ ∧
        "fa-exclamation-triangle" ∈ cs ∧ "fa-spinner" ∉ cs ∧ "fa-spin" ∉ cs) := by
  obtain ⟨ht1, ht2, ht3⟩ := final_true_spinners st wid sp bn w se be t hw hsp hse hbn hbe
  obtain ⟨hf1, hf2, hf3⟩ := final_false_spinners st wid sp bn w se be t hw hsp hse hbn hbe
  have hspinner : "fa-spinner" ∉
      (se.classes.filter (· != "fa-spinner")).filter (· != "fa-spin") :=
    fun h => filter_bne_not_mem _ _ (List.mem_of_mem_filter h)
  have hspin : "fa-spin" ∉ (se.classes.filter (· != "fa-spinner")).filter (· != "fa-spin") :=
    filter_bne_not_mem _ _
  refine ⟨⟨ht1, ht2, _, ht3, addClass_mem _ _, ?_, ?_⟩,
    ⟨hf1, hf2, _, hf3, addClass_mem _ _, ?_, ?_⟩⟩
  · exact addClass_not_mem _ _ _ hspinner (by decide)
  · exact addClass_not_mem _ _ _ hspin (by decide)
  · exact addClass_not_mem _ _ _ hspinner (by decide)
  · exact addClass_not_mem _ _ _ hspin (by decide)

/-- Witness for C6: widget 4 attached to `#btn1`, finalised with
"Upload failed" both ways. -/
theorem final_message_and_icon_witness :
    lookupA 4 stW1.widgets = some ⟨some 0, some 1, some 2, some 3⟩ ∧
    lookupA 1 stW1.spinners = some ⟨0, ["fa", "fa-spinner", "fa-spin"]⟩ ∧
    lookupA 2 stW1.banners = some ⟨0, "Uploading"⟩ ∧
    (((final 4 "Upload failed" true stW1).1 = 4 ∧
      msgGet 4 (final 4 "Upload failed" true stW1).2 = "Upload failed" ∧
      ∃ cs, lookupA 1 (final 4 "Upload failed" true stW1).2.spinners = some ⟨0, cs⟩ ∧
        "fa-check" ∈ cs ∧ "fa-spinner" ∉ cs ∧ "fa-spin" ∉ cs) ∧
    ((final 4 "Upload failed" false stW1).1 = 4 ∧
      msgGet 4 (final 4 "Upload failed" false stW1).2 = "Upload failed" ∧
      ∃ cs, lookupA 1 (final 4 "Upload failed" false stW1).2.spinners = some ⟨0, cs⟩ ∧
        "fa-exclamation-triangle" ∈ cs ∧ "fa-spinner" ∉ cs ∧ "fa-spin" ∉ cs)) :=
  ⟨by decide, by decide, by decide,
    final_message_and_icon stW1 4 1 2 ⟨some 0, some 1, some 2, some 3⟩
      ⟨0, ["fa", "fa-spinner", "fa-spin"]⟩ ⟨0, "Uploading"⟩ "Upload failed"
      (by decide) (by decide) (by decide) (by decide) (by decide)⟩

/-- C7: `hide(d)` returns the widget itself and changes nothing but the
wrapper's visibility and fade-out duration: the registry, the widget heap,
the spinners (phase/outcome styling) and the banners (messages) are all
untouched; when the duration is not given the fade-out lasts 1500 ms. -/
theorem hide_returns_self_frame (st : St) (wid wr : Nat) (w : Widget) (we : WrapperE)
    (d : Option Nat)
    (hw : lookupA wid st.widgets = some w)
    (hwr : w.wrapper = some wr)
    (hwe : lookupA wr st.wrappers = some we) :
    (hide wid d st).1 = wid ∧
    (hide wid d st).2.registry = st.registry ∧
    (hide wid d st).2.widgets = st.widgets ∧
    (hide wid d st).2.spinners = st.spinners ∧
    (hide wid d st).2.banners = st.banners ∧
    (∀ w2, msgGet w2 (hide wid d st).2 = msgGet w2 st) ∧
    lookupA wr (hide wid none st).2.wrappers =
      some { we with visible := false, lastFadeOut := some (FadeDur.ms 1500) } := by
  refine ⟨rfl, ?_, ?_, ?_, ?_, ?_, ?_⟩
  · simp [hide, updWrapperOf_registry]
  · simp [hide, updWrapperOf_widgets]
  · simp [hide, updWrapperOf_spinners]
  · simp [hide, updWrapperOf_banners]
  · intro w2
    exact msgGet_eq_of _ _ w2 (by simp [hide, updWrapperOf_widgets])
      (by simp [hide, updWrapperOf_banners])
  · have h := updWrapperOf_eq st wid wr w we
      (fun e => { e with visible := false, lastFadeOut := some (FadeDur.ms 1500) }) hw hwr hwe
    simp [hide, h, lookupA_setA_self]

/-- Witness for C7: hiding widget 4 (attached to `#btn1`) with an explicit
duration of 200 ms for the frame part, and without a duration for the
1500 ms default. -/
theorem hide_returns_self_frame_witness :
    lookupA 4 stW1.widgets = some ⟨some 0, some 1, some 2, some 3⟩ ∧
    lookupA 0 stW1.wrappers = some ⟨"smart-btn1", true, true, none⟩ ∧
    ((hide 4 (some 200) stW1).1 = 4 ∧
      (hide 4 (some 200) stW1).2.registry = stW1.registry ∧
      (hide 4 (some 200) stW1).2.widgets = stW1.widgets ∧
      (hide 4 (some 200) stW1).2.spinners = stW1.spinners ∧
      (hide 4 (some 200) stW1).2.banners = stW1.banners ∧
      (∀ w2, msgGet w2 (hide 4 (some 200) stW1).2 = msgGet w2 stW1) ∧
      lookupA 0 (hide 4 none stW1).2.wrappers =
        some ⟨"smart-btn1", true, false, some (FadeDur.ms 1500)⟩) :=
  ⟨by decide, by decide,
    hide_returns_self_frame stW1 4 0 ⟨some 0, some 1, some 2, some 3⟩
      ⟨"smart-btn1", true, true, none⟩ (some 200) (by decide) (by decide) (by decide)⟩

theorem clickClose_eq (st : St) (cl : Nat) (ce : CloseE) (we : WrapperE)
    (hc : lookupA cl st.closes = some ce)
    (hwe : lookupA ce.parent st.wrappers = some we) :
    clickClose cl st =
      { st with wrappers := setA ce.parent { we with visible := false, lastFadeOut := some FadeDur.slow } st.wrappers } := by
  simp [clickClose, hc, hwe]

/-- C8: activating the dismiss (close) control only fades out the wrapper
it sits in: the registry is untouched (every `find` answer is unchanged, so
the widget's key stays registered), the widget heap, spinners and banners
(message/phase) are untouched, and the wrapper stays in the document — the
dismiss control never has the effect of `destroy()`. -/
theorem dismiss_hides_not_destroys (st : St) (cl : Nat) (ce : CloseE) (we : WrapperE)
    (hc : lookupA cl st.closes = some ce)
    (hwe : lookupA ce.parent st.wrappers = some we) :
    (clickClose cl st).registry = st.registry ∧
    (∀ k, find k (clickClose cl st) = find k st) ∧
    (clickClose cl st).widgets = st.widgets ∧
    (clickClose cl st).spinners = st.spinners ∧
    (clickClose cl st).banners = st.banners ∧
    (∀ w2, msgGet w2 (clickClose cl st) = msgGet w2 st) ∧
    lookupA ce.parent (clickClose cl st).wrappers =
      some { we with visible := false, lastFadeOut := some FadeDur.slow } ∧
    ({ we with visible := false, lastFadeOut := some FadeDur.slow } : WrapperE).inDoc =
      we.inDoc := by
  refine ⟨clickClose_registry cl st, ?_, clickClose_widgets cl st, clickClose_spinners cl st,
    clickClose_banners cl st, ?_, ?_, rfl⟩
  · intro k
    unfold find
    rw [clickClose_registry]
  · intro w2
    exact msgGet_eq_of _ _ w2 (clickClose_widgets cl st) (clickClose_banners cl st)
  · rw [clickClose_eq st cl ce we hc hwe]
    simp [lookupA_setA_self]

/-- Witness for C8: clicking the dismiss control (element 3) of widget 4
while it is attached to `#btn1`. -/
theorem dismiss_hides_not_destroys_witness :
    lookupA 3 stW1.closes = some ⟨0⟩ ∧
    lookupA 0 stW1.wrappers = some ⟨"smart-btn1", true, true, none⟩ ∧
    ((clickClose 3 stW1).registry = stW1.registry ∧
      (∀ k, find k (clickClose 3 stW1) = find k stW1) ∧
      (clickClose 3 stW1).widgets = stW1.widgets ∧
      (clickClose 3 stW1).spinners = stW1.spinners ∧
      (clickClose 3 stW1).banners = stW1.banners ∧
      (∀ w2, msgGet w2 (clickClose 3 stW1) = msgGet w2 stW1) ∧
      lookupA 0 (clickClose 3 stW1).wrappers =
        some ⟨"smart-btn1", true, false, some FadeDur.slow⟩ ∧
      (⟨"smart-btn1", true, false, some FadeDur.slow⟩ : WrapperE).inDoc =
        (⟨"smart-btn1", true, true, none⟩ : WrapperE).inDoc) :=
  ⟨by decide, by decide,
    dismiss_hides_not_destroys stW1 3 ⟨0⟩ ⟨"smart-btn1", true, true, none⟩
      (by decide) (by decide)⟩

/-- C3: when widget B calls `attach(target, overwrite=true)` on a target
whose key is already registered, the call returns B, re-points B's
container/spinner/banner/close references to the elements already in the
document for that key, writes B's message onto those elements, and
registers B under the key: afterwards `find(key)` returns B and B's
displayed message is unchanged (the caller's message wins). -/
theorem attach_overwrite_takes_over (st : St) (wid oldWid wr bn : Nat) (w : Widget)
    (be : BannerE) (tid : Option String)
    (hne : tid ≠ some "")
    (hw : lookupA wid st.widgets = some w)
    (htaken : find ("smart-" ++ attrToString tid) st = some oldWid)
    (hfw : findWrapperInDoc ("smart-" ++ attrToString tid) st = some wr)
    (hfb : findBannerChild wr st = some bn)
    (hbe : lookupA bn st.banners = some be) :
    (attach wid (some tid) true st).1 = some wid ∧
    find ("smart-" ++ attrToString tid) (attach wid (some tid) true st).2 = some wid ∧
    lookupA wid (attach wid (some tid) true st).2.widgets =
      some ⟨some wr, findSpinnerChild wr st, some bn, findCloseChild wr st⟩ ∧
    msgGet wid (attach wid (some tid) true st).2 = msgGet wid st := by
  have h1 := attach_ow_state st wid oldWid w tid hw hne htaken
  refine ⟨by rw [h1], ?_, ?_, ?_⟩
  · rw [h1]
    simp [find, lookupA_setA_self]
  · rw [h1]
    simp [msgSet_widgets, lookupA_setA_self, owDom, hfw, hfb]
  · rw [h1]
    simp [msgGet, msgSet, owDom, hfw, hfb, hbe, lookupA_setA_self, msgSet_widgets]

/-- Witness for C3: the spec's §8 scenario — widget 9 ("Retrying")
overwrite-attaches to `#btn1` while widget 4 ("Uploading") holds the key;
afterwards `find("smart-btn1")` is widget 9 and its message is still
"Retrying". -/
theorem attach_overwrite_takes_over_witness :
    lookupA 9 stW2.widgets = some ⟨some 5, some 6, some 7, some 8⟩ ∧
    find ("smart-" ++ attrToString (some "btn1")) stW2 = some 4 ∧
    findWrapperInDoc ("smart-" ++ attrToString (some "btn1")) stW2 = some 0 ∧
    findBannerChild 0 stW2 = some 2 ∧
    lookupA 2 stW2.banners = some ⟨0, "Uploading"⟩ ∧
    ((attach 9 (some (some "btn1")) true stW2).1 = some 9 ∧
      find ("smart-" ++ attrToString (some "btn1"))
        (attach 9 (some (some "btn1")) true stW2).2 = some 9 ∧
      lookupA 9 (attach 9 (some (some "btn1")) true stW2).2.widgets =
        some ⟨some 0, findSpinnerChild 0 stW2, some 2, findCloseChild 0 stW2⟩ ∧
      msgGet 9 (attach 9 (some (some "btn1")) true stW2).2 = msgGet 9 stW2) :=
  ⟨by decide, by decide, by decide, by decide, by decide,
    attach_overwrite_takes_over stW2 9 4 0 2 ⟨some 5, some 6, some 7, some 8⟩
      ⟨0, "Uploading"⟩ (some "btn1") (by decide) (by decide) (by decide) (by decide)
      (by decide) (by decide)⟩

/-- C9: `destroy()` removes the registry entry keyed by whatever data-id
the widget's container currently carries.  Consequently, after an
overwrite-attach has re-pointed a new widget to the container already in
the document for the key, destroying the superseded old widget — which
still references that same container — removes the shared container from
the document and deletes the registry entry that by then maps to the new
widget. -/
theorem destroy_superseded_removes_new (st : St) (oldWid newWid wr : Nat)
    (wOld wNew : Widget) (we : WrapperE) (tid : Option String)
    (hne : tid ≠ some "")
    (hdiff : oldWid ≠ newWid)
    (hwo : lookupA oldWid st.widgets = some wOld)
    (hwn : lookupA newWid st.widgets = some wNew)
    (hwrap : wOld.wrapper = some wr)
    (hwe : lookupA wr st.wrappers = some we)
    (hdid : we.dataId = "smart-" ++ attrToString tid)
    (htaken : find ("smart-" ++ attrToString tid) st = some oldWid)
    (hnd : keysNodup st.registry) :
    (attach newWid (some tid) true st).1 = some newWid ∧
    find ("smart-" ++ attrToString tid) (attach newWid (some tid) true st).2 =
      some newWid ∧
    find ("smart-" ++ attrToString tid)
      (destroy oldWid (attach newWid (some tid) true st).2) = none ∧
    lookupA wr (destroy oldWid (attach newWid (some tid) true st).2).wrappers =
      some { we with inDoc := false } := by
  have h1 := attach_ow_state st newWid oldWid wNew tid hwn hne htaken
  have hSreg : (attach newWid (some tid) true st).2.registry =
      setA ("smart-" ++ attrToString tid) newWid st.registry := by
    rw [h1]
  have hSwid : (attach newWid (some tid) true st).2.widgets =
      setA newWid (owDom ("smart-" ++ attrToString tid) st) st.widgets := by
    rw [h1]
    simp [msgSet_widgets]
  have hSwrap : (attach newWid (some tid) true st).2.wrappers = st.wrappers := by
    rw [h1]
    simp [msgSet_wrappers]
  have hwoS : lookupA oldWid (attach newWid (some tid) true st).2.widgets = some wOld := by
    rw [hSwid, lookupA_setA_ne _ _ (Ne.symm hdiff)]
    exact hwo
  have hweS : lookupA wr (attach newWid (some tid) true st).2.wrappers = some we := by
    rw [hSwrap]
    exact hwe
  have hkeyS := wrapperKey_eq (attach newWid (some tid) true st).2 oldWid wr wOld we
    hwoS hwrap hweS
  have hrem := wrapperRemove_eq (attach newWid (some tid) true st).2 oldWid wr wOld we
    hwoS hwrap hweS
  refine ⟨by rw [h1], ?_, ?_, ?_⟩
  · rw [h1]
    simp [find, lookupA_setA_self]
  · unfold find
    rw [destroy_registry, hkeyS, hdid, hSreg]
    exact lookupA_eraseA_self _ (keysNodup_setA _ _ hnd)
  · unfold destroy
    rw [hrem]
    simp [lookupA_setA_self]

/-- Witness for C9: widget 9 overwrite-attaches to `#btn1` over widget 4;
destroying the superseded widget 4 then unregisters widget 9's key and
removes the shared container (element 0) from the document. -/
theorem destroy_superseded_removes_new_witness :
    lookupA 4 stW2.widgets = some ⟨some 0, some 1, some 2, some 3⟩ ∧
    lookupA 9 stW2.widgets = some ⟨some 5, some 6, some 7, some 8⟩ ∧
    lookupA 0 stW2.wrappers = some ⟨"smart-btn1", true, true, none⟩ ∧
    find ("smart-" ++ attrToString (some "btn1")) stW2 = some 4 ∧
    keysNodup stW2.registry ∧
    ((attach 9 (some (some "btn1")) true stW2).1 = some 9 ∧
      find ("smart-" ++ attrToString (some "btn1"))
        (attach 9 (some (some "btn1")) true stW2).2 = some 9 ∧
      find ("smart-" ++ attrToString (some "btn1"))
        (destroy 4 (attach 9 (some (some "btn1")) true stW2).2) = none ∧
      lookupA 0 (destroy 4 (attach 9 (some (some "btn1")) true stW2).2).wrappers =
        some ⟨"smart-btn1", false, true, none⟩) :=
  ⟨by decide, by decide, by decide, by decide, by decide,
    destroy_superseded_removes_new stW2 4 9 0 ⟨some 0, some 1, some 2, some 3⟩
      ⟨some 5, some 6, some 7, some 8⟩ ⟨"smart-btn1", true, true, none⟩ (some "btn1")
      (by decide) (by decide) (by decide) (by decide) (by decide) (by decide) (by decide)
      (by decide) (by decide)⟩

end SmartStatusJs
